import Mathlib

/-!
Verification of the SpurHacks parking-safety backend.

This file gives a shallow embedding of the scoring and caching core of the
repository (backend/enhanced_safety_predictor.py, backend/safety_predictor.py,
backend/cache_manager.py, backend/data_processor.py,
backend/geocoding_service.py) and proves or refutes the frozen claims about
it.  Numeric scores are modelled as rationals, Python strings as Lean strings
operating on their character lists (so that everything reduces in the kernel),
Python dictionaries built with literal keys as association lists, and the
file system as an association list from paths to optional stat data.
-/

namespace SpurHacks

/-! ## Python string primitives, modelled character-wise -/

/-- Rebuild a string from its characters. -/
def ofChars (l : List Char) : String := String.mk l

/-- Python str.upper restricted to ASCII, which is all the data contains.
Char.toUpper maps exactly the letters a-z. -/
def pyUpper (s : String) : String := ofChars (s.data.map Char.toUpper)

/-- Python str.strip with no arguments: remove leading and trailing
whitespace. -/
def pyStrip (s : String) : String :=
  ofChars (((s.data.dropWhile Char.isWhitespace).reverse.dropWhile Char.isWhitespace).reverse)

/-- Substring test on character lists; the empty pattern is contained in
everything, as with the Python in operator on strings. -/
def listContains (pat : List Char) : List Char → Bool
  | [] => pat.isEmpty
  | c :: rest => pat.isPrefixOf (c :: rest) || listContains pat rest

/-- Python substring test: pat in s (case sensitive). -/
def strContainsB (s pat : String) : Bool := listContains pat.data s.data

/-- Characters of the next whitespace-delimited word. -/
def takeWord (l : List Char) : List Char := l.takeWhile (fun c => !c.isWhitespace)

/-- Drop the next whitespace-delimited word. -/
def dropWord (l : List Char) : List Char := l.dropWhile (fun c => !c.isWhitespace)

/-- Fuel-driven worker for whitespace splitting; the fuel is the length of
the list, which bounds the recursion depth. -/
def pySplitWSAux : ℕ → List Char → List (List Char)
  | 0, _ => []
  | _ + 1, [] => []
  | fuel + 1, c :: rest =>
    if c.isWhitespace then pySplitWSAux fuel rest
    else (c :: takeWord rest) :: pySplitWSAux fuel (dropWord rest)

/-- Python str.split with no arguments: split on runs of whitespace and
drop empty pieces, so the empty string yields the empty list. -/
def pySplitWS (s : String) : List String :=
  (pySplitWSAux s.data.length s.data).map ofChars

/-- Python sep.join on a list of strings, with a single-character view of
the separator handled by List.intercalate. -/
def pyJoin (sep : String) (parts : List String) : String :=
  ofChars (List.intercalate sep.data (parts.map String.data))

/-- Split a character list at every occurrence of one character, keeping
empty pieces, like Python str.split with an explicit separator. -/
def splitOnChar (c : Char) : List Char → List (List Char)
  | [] => [[]]
  | x :: xs =>
    match splitOnChar c xs with
    | [] => [[x]]
    | h :: t => if x = c then [] :: h :: t else (x :: h) :: t

/-- Fuel-driven worker for replacement of every occurrence of a pattern,
scanning left to right without overlap, as Python str.replace does. -/
def replaceAux : ℕ → List Char → List Char → List Char → List Char
  | 0, _, _, hay => hay
  | _ + 1, _, _, [] => []
  | fuel + 1, pat, repl, c :: rest =>
    if pat.isPrefixOf (c :: rest) then
      repl ++ replaceAux fuel pat repl ((c :: rest).drop pat.length)
    else c :: replaceAux fuel pat repl rest

/-- Python str.replace for a non-empty pattern (the source only replaces
the dollar sign, the string /hr and the dot). -/
def pyReplace (s pat repl : String) : String :=
  if pat.data.isEmpty then s else ofChars (replaceAux s.data.length pat.data repl.data s.data)

/-- Value of a non-empty digit string. -/
def digitsToNat (l : List Char) : ℕ :=
  l.foldl (fun n c => 10 * n + (c.toNat - '0'.toNat)) 0

/-- Python str.isdigit for ASCII data: non-empty and all characters are
decimal digits. -/
def pyIsDigit (s : String) : Bool := !s.data.isEmpty && s.data.all Char.isDigit

/-- Modelled subset of the Python float constructor: an optional sign
followed by decimal digits with at most one point and at least one digit.
Scientific notation, infinities, nan and surrounding whitespace are not
modelled; no cost text in the datasets uses them. -/
def pyFloat? (s : String) : Option ℚ :=
  let signed : ℚ × List Char :=
    match s.data with
    | '-' :: rest => (-1, rest)
    | '+' :: rest => (1, rest)
    | l => (1, l)
  match splitOnChar '.' signed.2 with
  | [ip] =>
    if !ip.isEmpty && ip.all Char.isDigit then some (signed.1 * digitsToNat ip) else none
  | [ip, fp] =>
    if ip.all Char.isDigit && fp.all Char.isDigit && (!ip.isEmpty || !fp.isEmpty) then
      some (signed.1 * ((digitsToNat ip : ℚ) + (digitsToNat fp : ℚ) / 10 ^ fp.length))
    else none
  | _ => none

/-- Python repr of a string without special characters: surround with
single quotes. -/
def pyRepr (s : String) : String := "'" ++ s ++ "'"

/-- Python str of a list of strings: bracketed, comma-separated reprs. -/
def pyStrList (l : List String) : String :=
  "[" ++ pyJoin ", " (l.map pyRepr) ++ "]"

/-! ## Dates, as parsed by datetime.strptime with format percent-m slash
percent-d slash percent-Y -/

/-- Gregorian leap-year rule, as implemented by the Python datetime module. -/
def leapYear (y : ℕ) : Bool := y % 4 = 0 && (y % 100 ≠ 0 || y % 400 = 0)

/-- Length of a month in a given year. -/
def daysInMonth (y m : ℕ) : ℕ :=
  if m = 2 then (if leapYear y then 29 else 28)
  else if m = 4 || m = 6 || m = 9 || m = 11 then 30
  else 31

/-- Days in the months of year y strictly before month m. -/
def daysBeforeMonth (y m : ℕ) : ℕ :=
  (List.range m).foldl (fun acc i => if 1 ≤ i then acc + daysInMonth y i else acc) 0

/-- Proleptic Gregorian ordinal of a date, day 1 being January 1 of year 1,
matching datetime.date.toordinal. -/
def toOrdinal (y m d : ℕ) : ℕ :=
  365 * (y - 1) + (y - 1) / 4 + (y - 1) / 400 - (y - 1) / 100 + daysBeforeMonth y m + d

/-- A one- or two-digit field, as the strptime directives for month and day
accept. -/
def digits12 (l : List Char) : Bool :=
  (l.length = 1 || l.length = 2) && l.all Char.isDigit

/-- Parse one token in month/day/year form to its Gregorian ordinal,
validating ranges exactly as datetime.strptime does for the format used by
the analyzer; the parsed value carries no time of day, so the hour attribute
of the resulting datetime is always zero. -/
def parseMDY (s : String) : Option ℕ :=
  match splitOnChar '/' s.data with
  | [m, d, y] =>
    if digits12 m && digits12 d && (y.length = 4 && y.all Char.isDigit) then
      let mv := digitsToNat m
      let dv := digitsToNat d
      let yv := digitsToNat y
      if 1 ≤ mv && mv ≤ 12 && 1 ≤ dv && dv ≤ daysInMonth yv mv && 1 ≤ yv then
        some (toOrdinal yv mv dv)
      else none
    else none
  | _ => none

namespace EnhancedSafetyPredictor

/-! ## Records and location filtering, from enhanced_safety_predictor.py -/

/-- One row of the bylaw-infractions dataset, restricted to the columns the
predictor reads.  Values are already strings after the CSV loader replaces
missing values with the empty string. -/
structure BylawRecord where
  STREET : String
  ISSUEDATE : String
  REASON : String
  VIOFINE : String
  ADDRESS : String
deriving DecidableEq

/-- A Python dictionary with string keys and string values, keeping
insertion order. -/
abbrev PyDict := List (String × String)

/-- Python dict.get with a default. -/
def dictGet (d : PyDict) (k default : String) : String :=
  match d.find? (fun kv => kv.1 == k) with
  | some kv => kv.2
  | none => default

/-- The per-infraction dictionary built by get_location_infractions,
with the literal lower-case keys the source uses. -/
def mkInfractionDict (r : BylawRecord) : PyDict :=
  [("date", r.ISSUEDATE), ("reason", r.REASON), ("fine", r.VIOFINE),
   ("address", r.ADDRESS), ("street", r.STREET)]

/-- Filter the bylaw data to one location by case-insensitive equality on
the STREET column and repackage each row as a dictionary. -/
def get_location_infractions (location : String) (bylaw_data : List BylawRecord) :
    List PyDict :=
  (bylaw_data.filter (fun r => pyUpper r.STREET == pyUpper location)).map mkInfractionDict

/-! ## Infraction analysis -/

/-- Result of analyze_infractions restricted to the fields the scorer and
the claims read; the severity, fine and violation-type statistics are not
modelled. -/
structure InfractionAnalysis where
  total_count : ℕ
  recent_count : ℕ
  peak_times : List String
deriving DecidableEq

/-- Increment the counter for a key in an insertion-ordered histogram, as
a Python defaultdict does. -/
def bump : List (String × ℕ) → String → List (String × ℕ)
  | [], k => [(k, 1)]
  | (k0, n) :: rest, k =>
    if k0 = k then (k0, n + 1) :: rest else (k0, n) :: bump rest k

/-- Insert behind every entry with a count at least as large, giving a
stable descending insertion. -/
def insertDescStable (x : String × ℕ) : List (String × ℕ) → List (String × ℕ)
  | [] => [x]
  | y :: ys => if x.2 ≤ y.2 then y :: insertDescStable x ys else x :: y :: ys

/-- Stable sort by count, descending, as Python sorted with reverse=True. -/
def sortDescStable (l : List (String × ℕ)) : List (String × ℕ) :=
  l.foldl (fun acc x => insertDescStable x acc) []

/-- Format an hour as the HH:00 keys of the time-pattern histogram. -/
def fmtHour (h : ℕ) : String :=
  (if h < 10 then "0" else "") ++ toString h ++ ":00"

/-- One step of the loop of analyze_infractions, accumulating the recent
count and the time-pattern histogram.  The source reads the keys ISSUEDATE,
REASON and VIOFINE, which are not the keys the dictionaries carry; the date
lookup below is therefore faithful, including its default.  A record whose
date portion fails to parse raises inside the try block and contributes to
neither statistic. -/
def infractionStep (recent_date : ℚ) (acc : ℕ × List (String × ℕ)) (inf : PyDict) :
    ℕ × List (String × ℕ) :=
  let issue_date := dictGet inf "ISSUEDATE" ""
  if issue_date = "" then acc
  else
    match pySplitWS issue_date with
    | [] => acc
    | tok :: restToks =>
      match parseMDY tok with
      | none => acc
      | some o =>
        let recent := if (o : ℚ) ≥ recent_date then acc.1 + 1 else acc.1
        let hour : ℕ := if restToks.length > 0 then 0 else 12
        (recent, bump acc.2 (fmtHour hour))

/-- analyze_infractions: totals, recency within 30 days of now, and the
top three histogram keys as peak times.  The parameter now is the current
time in days, with a fractional part for the time of day. -/
def analyze_infractions (now : ℚ) (infractions : List PyDict) : InfractionAnalysis :=
  if infractions.isEmpty then { total_count := 0, recent_count := 0, peak_times := [] }
  else
    let res := infractions.foldl (infractionStep (now - 30)) (0, [])
    { total_count := infractions.length
      recent_count := res.1
      peak_times := ((sortDescStable res.2).take 3).map Prod.fst }

/-! ## Street-parking analysis -/

/-- One row of the on-street parking dataset, with the lower-case field
names used by the per-location dictionaries the analyzer consumes. -/
structure StreetParkingRecord where
  category : String
  subcategory : String
  num_spaces : String
  parking_cost : String
  hours : String
  days : String
  payment_method : String
  max_rate : String
  street : String
deriving DecidableEq

/-- Filter the street-parking data to one location by case-insensitive
equality on the street field. -/
def get_location_street_parking (location : String)
    (parking_street_data : List StreetParkingRecord) : List StreetParkingRecord :=
  parking_street_data.filter (fun r => pyUpper r.street == pyUpper location)

/-- The truthiness-and-nan filter the analyzer applies to every free-text
field before using it. -/
def validStr (s : String) : Bool := s ≠ "" && s ≠ "nan" && s ≠ "None"

/-- The stripped cost text of a record, when the analyzer keeps it. -/
def costText (r : StreetParkingRecord) : Option String :=
  if validStr r.parking_cost && pyStrip r.parking_cost ≠ "" then
    some (pyStrip r.parking_cost)
  else none

/-- The stripped hours text of a record, when the analyzer keeps it. -/
def hoursText (r : StreetParkingRecord) : Option String :=
  if validStr r.hours && pyStrip r.hours ≠ "" then some (pyStrip r.hours) else none

/-- First-occurrence deduplication; models the Python set built over cost
strings.  CPython iterates a set in an unspecified order, so any fixed
order is a modelling choice; no settled claim depends on it. -/
def dedupFirstAux : List String → List String → List String
  | _, [] => []
  | seen, x :: xs =>
    if seen.contains x then dedupFirstAux seen xs
    else x :: dedupFirstAux (x :: seen) xs

/-- Deduplicate keeping first occurrences. -/
def pySet (l : List String) : List String := dedupFirstAux [] l

/-- Result of analyze_street_parking restricted to the fields the scorer
and the claims read; payment methods, ownership and the metered flag are
not modelled. -/
structure StreetAnalysis where
  total_spaces : ℕ
  free_hours_available : Bool
  free_parking_details : List String
  paid_parking_details : List String
  parking_cost_info : String
  restrictions : List String
  has_street_parking : Bool
  hours : String
  parking_cost : String
deriving DecidableEq

/-- Spaces contributed by one record: the guard keeps digit strings with
dots, then int of float truncates.  Inputs with more than one dot would
crash the Python source; the model maps them to zero. -/
def spacesOf (r : StreetParkingRecord) : ℕ :=
  if r.num_spaces ≠ "" && pyIsDigit (pyReplace r.num_spaces "." "") then
    match pyFloat? r.num_spaces with
    | some v => v.floor.toNat
    | none => 0
  else 0

/-- analyze_street_parking.  Note that the restrictions list is initialized
empty and never appended to anywhere in the source, so it is the empty list
on both branches. -/
def analyze_street_parking (street_parking : List StreetParkingRecord) : StreetAnalysis :=
  if street_parking.isEmpty then
    { total_spaces := 0
      free_hours_available := false
      free_parking_details := []
      paid_parking_details := []
      parking_cost_info := "No street parking data"
      restrictions := []
      has_street_parking := false
      hours := "Unknown"
      parking_cost := "Unknown" }
  else
    let cost_info := street_parking.filterMap costText
    let free_hours := cost_info.filter (fun c => strContainsB (pyUpper c) "FREE")
    let paid_parking := cost_info.filter (fun c => !strContainsB (pyUpper c) "FREE")
    let hours_info := street_parking.filterMap hoursText
    { total_spaces := street_parking.foldl (fun acc r => acc + spacesOf r) 0
      free_hours_available := !free_hours.isEmpty
      free_parking_details := free_hours
      paid_parking_details := paid_parking
      parking_cost_info :=
        if !free_hours.isEmpty || !paid_parking.isEmpty then
          pyJoin "; " (pySet (free_hours ++ paid_parking))
        else "No cost information"
      restrictions := []
      has_street_parking := true
      hours := if !hours_info.isEmpty then pyJoin "; " hours_info else "Unknown"
      parking_cost := if !cost_info.isEmpty then pyJoin "; " cost_info else "Unknown" }

/-! ## Parking-lot analysis -/

/-- One row of the parking-lots dataset, restricted to the address used
for matching; the remaining columns are copied through unchanged by the
safe_get projection and play no role in any claim. -/
structure ParkingLotRecord where
  LotName : String
  Address : String
deriving DecidableEq

/-- Strip a leading all-numeric token from an address, rejoining the rest
with single spaces, as the helper based on str.split and str.join does. -/
def extract_street_from_address (address : String) : String :=
  let parts := pySplitWS address
  if parts.length > 1 && pyIsDigit (parts.headD "") then pyJoin " " (parts.drop 1)
  else address

/-- Lots matching a location: non-blank address and either the location is
a case-insensitive substring of the address, or the address with its
leading street number stripped equals the location case-insensitively.
The source then projects each match through safe_get, which copies our
modelled fields unchanged, so the matching records themselves are
returned. -/
def get_nearby_parking_lots (location : String) (parking_lots_data : List ParkingLotRecord) :
    List ParkingLotRecord :=
  parking_lots_data.filter (fun lot =>
    pyStrip lot.Address ≠ "" &&
      (strContainsB (pyUpper lot.Address) (pyUpper location) ||
        pyUpper (extract_street_from_address lot.Address) == pyUpper location))

/-- Result of analyze_parking_lots restricted to the fields the scorer
reads. -/
structure LotAnalysis where
  available_lots : ℕ
  has_nearby_lots : Bool
deriving DecidableEq

/-- analyze_parking_lots. -/
def analyze_parking_lots (parking_lots : List ParkingLotRecord) : LotAnalysis :=
  if parking_lots.isEmpty then { available_lots := 0, has_nearby_lots := false }
  else { available_lots := parking_lots.length, has_nearby_lots := true }

/-! ## Comprehensive score composition -/

/-- Tags for the reasoning strings the scorer appends; each constructor
stands for one emitted message together with the values interpolated into
it. -/
inductive Reason where
  | highInfractionRate (rate : ℚ)
  | moderateInfractionRate (rate : ℚ)
  | lowInfractionRate (rate : ℚ)
  | veryLowInfractionRate (rate : ℚ)
  | noInfractions
  | freeParkingAvailable (details : List String)
  | paidParking (cost : ℚ)
  | freeParkingHours
  | timeLimitedParking
  | nearbyLots (n : ℕ)
  | highEnforcement (n : ℕ)
  | moderateEnforcement (n : ℕ)
deriving DecidableEq

/-- Section 1 of the scorer: the infraction penalty or bonus, driven by
the rate total over the fixed 30-day window. -/
def infraction_penalty (ia : InfractionAnalysis) : ℚ :=
  if ia.total_count > 0 then
    let rate : ℚ := (ia.total_count : ℚ) / 30
    if rate > 50 then -0.3
    else if rate > 20 then -0.2
    else if rate > 5 then -0.1
    else 0
  else 0.1

/-- Reasoning emitted by section 1; every branch appends exactly one
message. -/
def infraction_reasons (ia : InfractionAnalysis) : List Reason :=
  if ia.total_count > 0 then
    let rate : ℚ := (ia.total_count : ℚ) / 30
    if rate > 50 then [.highInfractionRate rate]
    else if rate > 20 then [.moderateInfractionRate rate]
    else if rate > 5 then [.lowInfractionRate rate]
    else [.veryLowInfractionRate rate]
  else [.noInfractions]

/-- Section 2a: the free-parking bonus, taken when the location has street
parking and the analyzer collected any FREE cost text. -/
def free_parking_bonus (sa : StreetAnalysis) : ℚ :=
  if sa.has_street_parking && !sa.free_parking_details.isEmpty then 0.15 else 0

/-- The cost value the scorer tries to parse from the aggregated cost
text, guarded by the truthiness and the Unknown and FREE comparisons of
the source. -/
def paidCostValue (sa : StreetAnalysis) : Option ℚ :=
  if sa.parking_cost_info ≠ "" && sa.parking_cost_info ≠ "Unknown" &&
      sa.parking_cost_info ≠ "FREE" then
    pyFloat? (pyReplace (pyReplace sa.parking_cost_info "$" "") "/hr" "")
  else none

/-- Section 2b: the paid-parking penalty, taken when a positive cost
parses. -/
def paid_parking_penalty (sa : StreetAnalysis) : ℚ :=
  if sa.has_street_parking then
    match paidCostValue sa with
    | some v => if v > 0 then -0.1 else 0
    | none => 0
  else 0

/-- The keyword scan of section 2c over the Python str rendering of the
restrictions list, upper-cased. -/
def restrictionsTextUpper (sa : StreetAnalysis) : String :=
  pyUpper (pyStrList sa.restrictions)

/-- Section 2c: the time-restriction bonus.  The source compares the
restrictions list against the string Unknown, which is never equal, so the
guard is exactly non-emptiness of the list. -/
def time_restriction_bonus (sa : StreetAnalysis) : ℚ :=
  if sa.has_street_parking then
    if !sa.restrictions.isEmpty then
      if strContainsB (restrictionsTextUpper sa) "FREE" then 0.1
      else if strContainsB (restrictionsTextUpper sa) "2HR" ||
          strContainsB (restrictionsTextUpper sa) "1HR" ||
          strContainsB (restrictionsTextUpper sa) "30MIN" then 0.05
      else 0
    else 0
  else 0

/-- Reasoning emitted by section 2, in source order: free parking, then
paid parking, then time restrictions. -/
def street_reasons (sa : StreetAnalysis) : List Reason :=
  if sa.has_street_parking then
    (if !sa.free_parking_details.isEmpty then
      [Reason.freeParkingAvailable sa.free_parking_details] else []) ++
    (match paidCostValue sa with
      | some v => if v > 0 then [Reason.paidParking v] else []
      | none => []) ++
    (if !sa.restrictions.isEmpty then
      if strContainsB (restrictionsTextUpper sa) "FREE" then [Reason.freeParkingHours]
      else if strContainsB (restrictionsTextUpper sa) "2HR" ||
          strContainsB (restrictionsTextUpper sa) "1HR" ||
          strContainsB (restrictionsTextUpper sa) "30MIN" then [Reason.timeLimitedParking]
      else []
    else [])
  else []

/-- Section 3: the lot-availability bonus, two points per lot capped at a
tenth. -/
def availability_bonus (la : LotAnalysis) : ℚ :=
  if la.available_lots > 0 then min 0.1 ((la.available_lots : ℚ) * 0.02) else 0

/-- Reasoning emitted by section 3. -/
def lot_reasons (la : LotAnalysis) : List Reason :=
  if la.available_lots > 0 then [.nearbyLots la.available_lots] else []

/-- Section 4: the enforcement-risk penalty, driven by the recent count. -/
def enforcement_risk (ia : InfractionAnalysis) : ℚ :=
  if ia.recent_count > 10 then -0.15
  else if ia.recent_count > 5 then -0.05
  else 0

/-- Reasoning emitted by section 4. -/
def enforcement_reasons (ia : InfractionAnalysis) : List Reason :=
  if ia.recent_count > 10 then [.highEnforcement ia.recent_count]
  else if ia.recent_count > 5 then [.moderateEnforcement ia.recent_count]
  else []

/-- Clamp to the unit interval, the final line of the scorer. -/
def clamp01 (x : ℚ) : ℚ := max 0 (min 1 x)

/-- The comprehensive safety score: the neutral base of one half plus the
six factors, clamped to the unit interval.  The factors are summed in the
order of the score_factors dictionary of the source. -/
def calculate_comprehensive_safety_score (ia : InfractionAnalysis)
    (sa : StreetAnalysis) (la : LotAnalysis) : ℚ :=
  clamp01 (0.5 + infraction_penalty ia + time_restriction_bonus sa +
    free_parking_bonus sa + paid_parking_penalty sa + availability_bonus la +
    enforcement_risk ia)

/-- The ordered reasoning list of the scorer. -/
def comprehensive_reasoning (ia : InfractionAnalysis) (sa : StreetAnalysis)
    (la : LotAnalysis) : List Reason :=
  infraction_reasons ia ++ street_reasons sa ++ lot_reasons la ++ enforcement_reasons ia

/-- The fixed threshold table mapping a score to a safety level. -/
def determine_safety_level (safety_score : ℚ) : String :=
  if safety_score ≥ 0.8 then "very_safe"
  else if safety_score ≥ 0.6 then "safe"
  else if safety_score ≥ 0.4 then "moderate"
  else if safety_score ≥ 0.2 then "risky"
  else "dangerous"

end EnhancedSafetyPredictor

namespace SafetyPredictor

/-! ## The simple scorer, from safety_predictor.py -/

/-- Normalized contribution of the total-infraction count, capped at one
hundred. -/
def total_factor (total_infractions : ℕ) : ℚ :=
  max 0 (1 - (total_infractions : ℚ) / 100)

/-- Normalized contribution of the recent-infraction count, capped at
twenty. -/
def recent_factor (recent_infractions : ℕ) : ℚ :=
  max 0 (1 - (recent_infractions : ℚ) / 20)

/-- Normalized contribution of the severity score, capped at two. -/
def severity_factor (severity_score : ℚ) : ℚ := max 0 (1 - severity_score / 2)

/-- Normalized contribution of the per-spot infraction rate, capped at
five. -/
def rate_factor (infraction_rate : ℚ) : ℚ := max 0 (1 - infraction_rate / 5)

/-- The weighted overall safety score of the simple scorer, clamped to the
unit interval by its final max of min line. -/
def calculate_overall_safety_score (total_infractions recent_infractions : ℕ)
    (severity_score infraction_rate : ℚ) : ℚ :=
  EnhancedSafetyPredictor.clamp01
    (total_factor total_infractions * 0.2 + recent_factor recent_infractions * 0.4 +
      severity_factor severity_score * 0.2 + rate_factor infraction_rate * 0.2)

/-- The threshold table of the simple scorer, textually identical to the
comprehensive one. -/
def determine_safety_level (safety_score : ℚ) : String :=
  if safety_score ≥ 0.8 then "very_safe"
  else if safety_score ≥ 0.6 then "safe"
  else if safety_score ≥ 0.4 then "moderate"
  else if safety_score ≥ 0.2 then "risky"
  else "dangerous"

end SafetyPredictor

namespace CacheManager

/-! ## The safety-analysis cache, from cache_manager.py -/

/-- Stat data of an existing file: modification time and byte size, both
modelled as naturals. -/
structure FileStat where
  mtime : ℕ
  size : ℕ
deriving DecidableEq

/-- The file system as seen by os.path.exists and os.stat: a map from
paths to stat data, absent paths mapping to none. -/
abbrev FileSystem := List (String × Option FileStat)

/-- Look a path up in the file system. -/
def lookupFS (fs : FileSystem) (p : String) : Option FileStat :=
  match fs.find? (fun kv => kv.1 == p) with
  | some kv => kv.2
  | none => none

/-- The MD5 hex digest, modelled injectively by the identity on its input:
the claims only compare digests of equal or different content strings, and
the digest of distinct short metadata strings is distinct in reality. -/
def md5hex (s : String) : String := s

/-- One iteration of the fingerprint loop: append path, modification time
and size, each followed by a colon, when the file exists, and skip the
file otherwise. -/
def hashStep (fs : FileSystem) (acc : String) (kv : String × String) : String :=
  match lookupFS fs kv.2 with
  | some st => acc ++ kv.2 ++ ":" ++ toString st.mtime ++ ":" ++ toString st.size ++ ":"
  | none => acc

/-- Fingerprint of the tracked data files: concatenate, in the insertion
order of the dictionary, the metadata of every file that exists, and
digest the result. -/
def get_data_hash (fs : FileSystem) (data_files : List (String × String)) : String :=
  md5hex (data_files.foldl (hashStep fs) "")

/-- The persisted cache document; timestamps are hours since an arbitrary
epoch, matching the hour-based age policy of the safety cache. -/
structure CacheEntry (α : Type) where
  timestamp : ℚ
  data_hash : String
  analysis_data : α

/-- save_safety_analysis: the document written, wholesale, to the cache
file. -/
def save_safety_analysis {α : Type} (now : ℚ) (fs : FileSystem)
    (data_files : List (String × String)) (analysis_data : α) : CacheEntry α :=
  { timestamp := now, data_hash := get_data_hash fs data_files, analysis_data }

/-- load_safety_analysis over the state of the cache file: none when the
file does not exist, some none when reading or parsing it raises (the
except handler returns None), some (some entry) when it parses.  The age
check precedes the fingerprint check, as in the source. -/
def load_safety_analysis {α : Type} (now : ℚ) (fs : FileSystem)
    (raw : Option (Option (CacheEntry α))) (data_files : List (String × String))
    (max_age_hours : ℚ) : Option α :=
  match raw with
  | none => none
  | some none => none
  | some (some entry) =>
    if now - entry.timestamp > max_age_hours then none
    else if entry.data_hash ≠ get_data_hash fs data_files then none
    else some entry.analysis_data

end CacheManager

namespace DataProcessor

/-! ## The geocode cache merge, from data_processor.py and
geocoding_service.py -/

/-- A coordinate pair. -/
abbrev Coord := ℚ × ℚ

/-- An address-keyed map, modelled as a function to optional values; a
Python dict lookup corresponds to application. -/
abbrev GeoMap := String → Option Coord

/-- dict.update: keys of the new map win, all other keys keep their old
value. -/
def dictUpdate (old new : GeoMap) : GeoMap :=
  fun a => match new a with
  | some v => some v
  | none => old a

/-- geocode_addresses_batch: look every requested address up once through
the single-address geocoder, collecting the successes; the result carries
keys only for requested addresses. -/
def geocode_addresses_batch (geocode : GeoMap) (addresses : List String) : GeoMap :=
  fun a => if a ∈ addresses then geocode a else none

/-- geocode_all_addresses, as a transformer of the cache state.  When the
provider is unavailable the function returns early without touching the
cache; otherwise it geocodes the uncached addresses (or all of them under
force) and merges the results into the cache with dict.update. -/
def geocode_all_addresses (available : Bool) (cache : GeoMap) (addresses : List String)
    (geocode : GeoMap) (force_regeocode : Bool) : GeoMap :=
  if !available then cache
  else
    let uncached :=
      if force_regeocode then addresses
      else addresses.filter (fun a => (cache a).isNone)
    if uncached.isEmpty then cache
    else dictUpdate cache (geocode_addresses_batch geocode uncached)

end DataProcessor

/-! ## Definitions taken from the wording of the specification, for
comparison with the source -/

/-- Modelled from the spec: the threshold table in the words of the spec,
with inclusive lower bounds at four fifths, three fifths, two fifths and
one fifth. -/
def safetyLevelTableSpec (s : ℚ) : String :=
  if s ≥ 0.8 then "very_safe"
  else if s ≥ 0.6 then "safe"
  else if s ≥ 0.4 then "moderate"
  else if s ≥ 0.2 then "risky"
  else "dangerous"

/-- Modelled from the spec: the address-stripping rule in the words of
claim C8, which drops the first whitespace-delimited token exactly when
that token is purely numeric, with no further condition. -/
def stripNumberSpec (address : String) : String :=
  match pySplitWS address with
  | tok :: rest => if pyIsDigit tok then pyJoin " " rest else address
  | [] => address

/-- Modelled from the spec: a record counts as recent per claim C5 when
its parsed date lies within the last 30 days before now, that is between
now minus 30 and now. -/
def recentPerSpec (now : ℚ) (issue_date : String) : Bool :=
  match pySplitWS issue_date with
  | tok :: _ =>
    match parseMDY tok with
    | some o => decide ((now - 30 ≤ (o : ℚ)) ∧ ((o : ℚ) ≤ now))
    | none => false
  | [] => false

/-! ## Shared lemmas -/

/-- The fingerprint fold skips files that do not exist: folding the hash
step over a file list equals folding it over the sublist of existing
files. -/
theorem hashFold_skips_missing (fs : CacheManager.FileSystem) :
    ∀ (df : List (String × String)) (acc : String),
      df.foldl (CacheManager.hashStep fs) acc =
        (df.filter (fun kv => (CacheManager.lookupFS fs kv.2).isSome)).foldl
          (CacheManager.hashStep fs) acc := by
  intro df
  induction df with
  | nil => intro acc; rfl
  | cons kv rest ih =>
    intro acc
    cases hl : CacheManager.lookupFS fs kv.2 with
    | none =>
      have hstep : CacheManager.hashStep fs acc kv = acc := by
        simp [CacheManager.hashStep, hl]
      simp only [List.foldl_cons, List.filter_cons, hl, hstep, Option.isSome_none,
        Bool.false_eq_true, if_false]
      exact ih acc
    | some st =>
      simp only [List.foldl_cons, List.filter_cons, hl, Option.isSome_some, if_true]
      exact ih _

/-! ## Claims -/

open EnhancedSafetyPredictor

/-- Claim C1: the safety level assigned to a score follows the fixed
threshold table with inclusive lower bounds (0.8 very safe, 0.6 safe,
0.4 moderate, 0.2 risky, otherwise dangerous), the five sample scores map
to the five levels, and the level function of the secondary
infraction-rate-only scorer is extensionally equal to the comprehensive
one. -/
theorem C1_safety_level_thresholds :
    (∀ s : ℚ, EnhancedSafetyPredictor.determine_safety_level s = safetyLevelTableSpec s) ∧
    (∀ s : ℚ, SafetyPredictor.determine_safety_level s =
      EnhancedSafetyPredictor.determine_safety_level s) ∧
    EnhancedSafetyPredictor.determine_safety_level 0.85 = "very_safe" ∧
    EnhancedSafetyPredictor.determine_safety_level 0.75 = "safe" ∧
    EnhancedSafetyPredictor.determine_safety_level 0.55 = "moderate" ∧
    EnhancedSafetyPredictor.determine_safety_level 0.35 = "risky" ∧
    EnhancedSafetyPredictor.determine_safety_level 0.05 = "dangerous" := by
  refine ⟨fun s => rfl, fun s => rfl, ?_, ?_, ?_, ?_, ?_⟩ <;>
    norm_num [EnhancedSafetyPredictor.determine_safety_level]

/-- Claim C2: for every combination of analysis inputs the returned safety
score lies in the unit interval, for the comprehensive scorer and for the
simple scorer alike, because both clamp the sum of base score and
adjustments before returning it. -/
theorem C2_score_always_clamped :
    (∀ (ia : InfractionAnalysis) (sa : StreetAnalysis) (la : LotAnalysis),
      0 ≤ calculate_comprehensive_safety_score ia sa la ∧
        calculate_comprehensive_safety_score ia sa la ≤ 1) ∧
    (∀ (total recent : ℕ) (sev rate : ℚ),
      0 ≤ SafetyPredictor.calculate_overall_safety_score total recent sev rate ∧
        SafetyPredictor.calculate_overall_safety_score total recent sev rate ≤ 1) := by
  have hc : ∀ x : ℚ, 0 ≤ clamp01 x ∧ clamp01 x ≤ 1 := by
    intro x
    unfold clamp01
    exact ⟨le_max_left 0 (min 1 x), max_le (by norm_num) (min_le_left 1 x)⟩
  exact ⟨fun ia sa la => hc _, fun total recent sev rate => hc _⟩

/-- Claim C3: the infraction component is the tiered function of the rate
total over 30 stated by the spec, with a bonus of a tenth exactly when
there are no infractions, each taken tier emits its reasoning tag, and a
location with no infractions and no street or lot data scores
0.5 + 0.1 = 0.6 with level safe and a no-infractions reasoning entry. -/
theorem C3_infraction_component :
    (∀ ia : InfractionAnalysis,
      infraction_penalty ia =
        (if ia.total_count = 0 then 0.1
         else if (ia.total_count : ℚ) / 30 > 50 then -0.3
         else if (ia.total_count : ℚ) / 30 > 20 then -0.2
         else if (ia.total_count : ℚ) / 30 > 5 then -0.1
         else 0)) ∧
    (∀ ia : InfractionAnalysis,
      infraction_reasons ia =
        (if ia.total_count = 0 then [Reason.noInfractions]
         else if (ia.total_count : ℚ) / 30 > 50 then
           [Reason.highInfractionRate ((ia.total_count : ℚ) / 30)]
         else if (ia.total_count : ℚ) / 30 > 20 then
           [Reason.moderateInfractionRate ((ia.total_count : ℚ) / 30)]
         else if (ia.total_count : ℚ) / 30 > 5 then
           [Reason.lowInfractionRate ((ia.total_count : ℚ) / 30)]
         else [Reason.veryLowInfractionRate ((ia.total_count : ℚ) / 30)])) ∧
    (∀ now : ℚ,
      calculate_comprehensive_safety_score (analyze_infractions now [])
        (analyze_street_parking []) (analyze_parking_lots []) = 0.6 ∧
      determine_safety_level
        (calculate_comprehensive_safety_score (analyze_infractions now [])
          (analyze_street_parking []) (analyze_parking_lots [])) = "safe" ∧
      Reason.noInfractions ∈
        comprehensive_reasoning (analyze_infractions now [])
          (analyze_street_parking []) (analyze_parking_lots [])) := by
  refine ⟨?_, ?_, ?_⟩
  · intro ia
    unfold infraction_penalty
    by_cases h : ia.total_count = 0
    · simp [h]
    · simp [h, Nat.pos_of_ne_zero h]
  · intro ia
    unfold infraction_reasons
    by_cases h : ia.total_count = 0
    · simp [h]
    · simp [h, Nat.pos_of_ne_zero h]
  · intro now
    have h1 : analyze_infractions now [] =
        { total_count := 0, recent_count := 0, peak_times := [] } := rfl
    have h2 : analyze_street_parking [] =
        { total_spaces := 0, free_hours_available := false, free_parking_details := [],
          paid_parking_details := [], parking_cost_info := "No street parking data",
          restrictions := [], has_street_parking := false, hours := "Unknown",
          parking_cost := "Unknown" } := rfl
    have h3 : analyze_parking_lots [] = { available_lots := 0, has_nearby_lots := false } := rfl
    rw [h1, h2, h3]
    refine ⟨?_, ?_, ?_⟩
    · norm_num [calculate_comprehensive_safety_score, infraction_penalty,
        time_restriction_bonus, free_parking_bonus, paid_parking_penalty, paidCostValue,
        availability_bonus, enforcement_risk, clamp01]
    · norm_num [calculate_comprehensive_safety_score, infraction_penalty,
        time_restriction_bonus, free_parking_bonus, paid_parking_penalty, paidCostValue,
        availability_bonus, enforcement_risk, clamp01, determine_safety_level]
    · norm_num [comprehensive_reasoning, infraction_reasons, street_reasons,
        lot_reasons, enforcement_reasons]

/-- Tracked data-file dictionary used in the concrete cache scenarios. -/
def exDataFiles : List (String × String) :=
  [("bylaw_infractions", "sample_data/bylaw.csv")]

/-- A file system where the tracked file exists with one modification
time. -/
def exFS1 : CacheManager.FileSystem := [("sample_data/bylaw.csv", some ⟨100, 5⟩)]

/-- The same file system after only the modification time changed; the
size is unchanged. -/
def exFS2 : CacheManager.FileSystem := [("sample_data/bylaw.csv", some ⟨101, 5⟩)]

/-- Claim C4: load returns the saved payload exactly when a cache document
exists and parses, its age is at most the maximum, and the fingerprint of
the current files equals the stored one; an unreadable document yields the
no-cache result, a changed modification time alone invalidates the cache,
and an expired document is rejected regardless of fingerprint. -/
theorem C4_cache_load_iff :
    (∀ (α : Type) (now max_age : ℚ) (fs : CacheManager.FileSystem)
      (df : List (String × String)) (raw : Option (Option (CacheManager.CacheEntry α))) (p : α),
      CacheManager.load_safety_analysis now fs raw df max_age = some p ↔
        ∃ e, raw = some (some e) ∧ now - e.timestamp ≤ max_age ∧
          e.data_hash = CacheManager.get_data_hash fs df ∧ p = e.analysis_data) ∧
    (∀ (α : Type) (now max_age : ℚ) (fs : CacheManager.FileSystem)
      (df : List (String × String)),
      CacheManager.load_safety_analysis now fs (some (none : Option (CacheManager.CacheEntry α)))
        df max_age = none) ∧
    (∀ (α : Type) (now max_age : ℚ) (fs : CacheManager.FileSystem)
      (df : List (String × String)),
      CacheManager.load_safety_analysis now fs (none : Option (Option (CacheManager.CacheEntry α)))
        df max_age = none) ∧
    CacheManager.load_safety_analysis 10 exFS2
      (some (some (CacheManager.save_safety_analysis 10 exFS1 exDataFiles "payload")))
      exDataFiles 24 = none ∧
    CacheManager.load_safety_analysis 35 exFS1
      (some (some (CacheManager.save_safety_analysis 10 exFS1 exDataFiles "payload")))
      exDataFiles 24 = none := by
  refine ⟨?_, ?_, ?_, ?_, ?_⟩
  · intro α now max_age fs df raw p
    match raw with
    | none => simp [CacheManager.load_safety_analysis]
    | some none => simp [CacheManager.load_safety_analysis]
    | some (some e) =>
      simp only [CacheManager.load_safety_analysis]
      split_ifs with h1 h2
      · constructor
        · intro h; exact absurd h (by simp)
        · rintro ⟨e', he', hage, -, -⟩
          obtain rfl : e = e' := by
            injection he' with he''; injection he''
          exact absurd hage (not_le.mpr h1)
      · constructor
        · intro h; exact absurd h (by simp)
        · rintro ⟨e', he', -, hhash, -⟩
          obtain rfl : e = e' := by
            injection he' with he''; injection he''
          exact h2 hhash
      · rw [not_not] at h2
        constructor
        · intro h
          exact ⟨e, rfl, not_lt.mp h1, h2, (Option.some.inj h).symm⟩
        · rintro ⟨e', he', -, -, hp⟩
          obtain rfl : e = e' := by
            injection he' with he''; injection he''
          rw [hp]
  · intro α now max_age fs df; rfl
  · intro α now max_age fs df; rfl
  · simp only [CacheManager.load_safety_analysis, CacheManager.save_safety_analysis]
    rw [if_neg (by norm_num), if_pos (by decide)]
  · simp only [CacheManager.load_safety_analysis, CacheManager.save_safety_analysis]
    rw [if_pos (by norm_num)]

/-- Witness for claim C4: at a concrete fresh document with a matching
fingerprint, load returns the payload. -/
theorem C4_cache_load_iff_witness :
    CacheManager.load_safety_analysis 12 exFS1
      (some (some (CacheManager.save_safety_analysis 10 exFS1 exDataFiles "payload")))
      exDataFiles 24 = some "payload" :=
  (C4_cache_load_iff.1 String 12 24 exFS1 exDataFiles
      (some (some (CacheManager.save_safety_analysis 10 exFS1 exDataFiles "payload")))
      "payload").mpr
    ⟨CacheManager.save_safety_analysis 10 exFS1 exDataFiles "payload", rfl,
      by norm_num [CacheManager.save_safety_analysis], rfl, rfl⟩

/-- Claim C10: a tracked file that does not exist contributes nothing to
the fingerprint, the fingerprint of a map with no existing file is the
digest of the empty string, and a cache saved and loaded under the same
map still validates. -/
theorem C10_fingerprint_ignores_missing_files :
    (∀ (fs : CacheManager.FileSystem) (df : List (String × String)),
      CacheManager.get_data_hash fs df =
        CacheManager.get_data_hash fs
          (df.filter (fun kv => (CacheManager.lookupFS fs kv.2).isSome))) ∧
    (∀ (fs : CacheManager.FileSystem) (df : List (String × String)),
      (∀ kv ∈ df, CacheManager.lookupFS fs kv.2 = none) →
        CacheManager.get_data_hash fs df = CacheManager.md5hex "") ∧
    (∀ (α : Type) (now max_age : ℚ) (fs : CacheManager.FileSystem)
      (df : List (String × String)) (payload : α), 0 ≤ max_age →
      CacheManager.load_safety_analysis now fs
        (some (some (CacheManager.save_safety_analysis now fs df payload))) df max_age =
        some payload) := by
  refine ⟨?_, ?_, ?_⟩
  · intro fs df
    unfold CacheManager.get_data_hash
    rw [hashFold_skips_missing fs df ""]
  · intro fs df h
    unfold CacheManager.get_data_hash
    rw [hashFold_skips_missing fs df ""]
    have hfil : df.filter (fun kv => (CacheManager.lookupFS fs kv.2).isSome) = [] := by
      rw [List.filter_eq_nil_iff]
      intro kv hkv
      simp [h kv hkv]
    rw [hfil]
    rfl
  · intro α now max_age fs df payload hage
    simp only [CacheManager.load_safety_analysis, CacheManager.save_safety_analysis]
    rw [if_neg (by simp; linarith), if_neg (by simp)]

/-- Witness for claim C10: concrete instantiation of the missing-file
parts, with a map whose only tracked file does not exist; its fingerprint
is the digest of the empty string and the saved cache still validates. -/
theorem C10_fingerprint_ignores_missing_files_witness :
    CacheManager.get_data_hash [] exDataFiles = CacheManager.md5hex "" ∧
    CacheManager.load_safety_analysis 10 []
      (some (some (CacheManager.save_safety_analysis 10 [] exDataFiles "payload")))
      exDataFiles 24 = some "payload" :=
  ⟨C10_fingerprint_ignores_missing_files.2.1 [] exDataFiles (by decide),
    C10_fingerprint_ignores_missing_files.2.2 String 10 24 [] exDataFiles "payload"
      (by norm_num)⟩

/-- Claim C9: a geocoding run that is not a forced refresh never changes
or removes an existing cache entry; only previously uncached addresses are
geocoded and merged in. -/
theorem C9_geocode_cache_monotone :
    ∀ (available : Bool) (cache : DataProcessor.GeoMap) (addresses : List String)
      (geocode : DataProcessor.GeoMap) (a : String) (c : DataProcessor.Coord),
      cache a = some c →
      DataProcessor.geocode_all_addresses available cache addresses geocode false a = some c := by
  intro available cache addresses geocode a c h
  unfold DataProcessor.geocode_all_addresses
  cases available with
  | false => simpa using h
  | true =>
    simp only [Bool.not_true, Bool.false_eq_true, if_false, Bool.if_false_right]
    by_cases hu : (addresses.filter (fun x => (cache x).isNone)).isEmpty
    · simp [hu, h]
    · have ha : a ∉ addresses.filter (fun x => (cache x).isNone) := by
        intro hmem
        have := (List.mem_filter.mp hmem).2
        simp [h] at this
      simp [hu, DataProcessor.dictUpdate, DataProcessor.geocode_addresses_batch, ha, h]

/-- Cache map for the witness of claim C9. -/
def exGeoCache : DataProcessor.GeoMap :=
  fun a => if a = "KING ST" then some (43.46, -80.52) else none

/-- Geocoder for the witness of claim C9, returning a different coordinate
for every address. -/
def exGeocoder : DataProcessor.GeoMap := fun _ => some (1, 2)

/-- Witness for claim C9: the cached coordinate of a known address
survives a non-forced run that geocodes one new address. -/
theorem C9_geocode_cache_monotone_witness :
    DataProcessor.geocode_all_addresses true exGeoCache ["KING ST", "QUEEN ST"]
      exGeocoder false "KING ST" = some (43.46, -80.52) :=
  C9_geocode_cache_monotone true exGeoCache ["KING ST", "QUEEN ST"] exGeocoder
    "KING ST" (43.46, -80.52) (by simp [exGeoCache])

/-- Claim C6: for a location with street-parking records, the free-parking
bonus of 0.15 is taken exactly when some record carries cost text
containing FREE case-insensitively, the paid-parking penalty of 0.1 is
taken exactly when a positive numeric rate parses from the aggregated cost
text after stripping the dollar sign and the per-hour suffix, and the
restriction-text bonus is 0.1 for FREE and 0.05 for a short time-limit
keyword, scanned over the rendered restrictions value. -/
theorem C6_street_parking_factors :
    (∀ recs : List StreetParkingRecord, recs ≠ [] →
      free_parking_bonus (analyze_street_parking recs) =
        (if recs.any (fun r => validStr r.parking_cost && pyStrip r.parking_cost ≠ "" &&
            strContainsB (pyUpper (pyStrip r.parking_cost)) "FREE") then 0.15 else 0)) ∧
    (∀ sa : StreetAnalysis, sa.has_street_parking = true →
      paid_parking_penalty sa =
        (match pyFloat? (pyReplace (pyReplace sa.parking_cost_info "$" "") "/hr" "") with
          | some v => if v > 0 then -0.1 else 0
          | none => 0)) ∧
    (∀ sa : StreetAnalysis, sa.has_street_parking = true →
      time_restriction_bonus sa =
        (if strContainsB (restrictionsTextUpper sa) "FREE" then 0.1
         else if strContainsB (restrictionsTextUpper sa) "2HR" ||
             strContainsB (restrictionsTextUpper sa) "1HR" ||
             strContainsB (restrictionsTextUpper sa) "30MIN" then 0.05
         else 0)) := by
  refine ⟨?_, ?_, ?_⟩
  · intro recs hne
    unfold analyze_street_parking
    rw [if_neg (by simp [List.isEmpty_iff, hne])]
    unfold free_parking_bonus
    simp only [Bool.true_and]
    have hkey :
        (!((recs.filterMap costText).filter
            (fun c => strContainsB (pyUpper c) "FREE")).isEmpty) =
          recs.any (fun r => validStr r.parking_cost && pyStrip r.parking_cost ≠ "" &&
            strContainsB (pyUpper (pyStrip r.parking_cost)) "FREE") := by
      rw [Bool.eq_iff_iff]
      simp only [Bool.not_eq_true', List.isEmpty_eq_false, ne_eq, List.any_eq_true]
      constructor
      · intro h
        obtain ⟨c, hc⟩ := List.exists_mem_of_ne_nil _ h
        obtain ⟨hcmem, hfree⟩ := List.mem_filter.mp hc
        obtain ⟨r, hr, hcost⟩ := List.mem_filterMap.mp hcmem
        refine ⟨r, hr, ?_⟩
        unfold costText at hcost
        by_cases hv : (validStr r.parking_cost && pyStrip r.parking_cost ≠ "") = true
        · rw [if_pos hv] at hcost
          obtain rfl : pyStrip r.parking_cost = c := Option.some.inj hcost
          simp only [Bool.and_eq_true] at hv ⊢
          exact ⟨hv, hfree⟩
        · rw [if_neg hv] at hcost
          exact absurd hcost (by simp)
      · rintro ⟨r, hr, hcond⟩
        simp only [Bool.and_eq_true] at hcond
        obtain ⟨h1, h2⟩ := hcond
        intro hnil
        have hmem : pyStrip r.parking_cost ∈
            (recs.filterMap costText).filter (fun c => strContainsB (pyUpper c) "FREE") := by
          rw [List.mem_filter]
          refine ⟨List.mem_filterMap.mpr ⟨r, hr, ?_⟩, h2⟩
          unfold costText
          rw [if_pos (by simp only [Bool.and_eq_true]; exact h1)]
        rw [hnil] at hmem
        exact absurd hmem (List.not_mem_nil _)
    rw [hkey]
  · intro sa h
    unfold paid_parking_penalty paidCostValue
    rw [h, if_pos rfl]
    by_cases h1 : sa.parking_cost_info = ""
    · rw [h1]
      norm_num [show pyFloat? (pyReplace (pyReplace "" "$" "") "/hr" "") = none from by decide]
    · by_cases h2 : sa.parking_cost_info = "Unknown"
      · rw [h2]
        norm_num
          [show pyFloat? (pyReplace (pyReplace "Unknown" "$" "") "/hr" "") = none from by decide]
      · by_cases h3 : sa.parking_cost_info = "FREE"
        · rw [h3]
          norm_num
            [show pyFloat? (pyReplace (pyReplace "FREE" "$" "") "/hr" "") = none from by decide]
        · rw [if_pos (by simp [h1, h2, h3])]
  · intro sa h
    unfold time_restriction_bonus
    rw [h, if_pos rfl]
    by_cases hr : sa.restrictions = []
    · have ht : restrictionsTextUpper sa = "[]" := by
        unfold restrictionsTextUpper
        rw [hr]
        decide
      rw [ht]
      simp [hr, show strContainsB "[]" "FREE" = false from by decide,
        show strContainsB "[]" "2HR" = false from by decide,
        show strContainsB "[]" "1HR" = false from by decide,
        show strContainsB "[]" "30MIN" = false from by decide]
    · rw [if_pos (by simp [List.isEmpty_iff, hr])]

/-- A street-parking record with free cost text, for the witness of claim
C6. -/
def exFreeRec : StreetParkingRecord :=
  { category := "ON-STREET", subcategory := "", num_spaces := "10",
    parking_cost := "FREE 2HR", hours := "8AM-6PM", days := "MON-FRI",
    payment_method := "", max_rate := "", street := "KING ST" }

/-- A street analysis with a parseable paid hourly rate, for the witness
of claim C6. -/
def exPaidSA : StreetAnalysis :=
  { total_spaces := 5, free_hours_available := false, free_parking_details := [],
    paid_parking_details := ["$2.00/hr"], parking_cost_info := "$2.00/hr",
    restrictions := [], has_street_parking := true, hours := "Unknown",
    parking_cost := "$2.00/hr" }

/-- A street analysis with free restriction text, for the witness of claim
C6. -/
def exRestrSA : StreetAnalysis :=
  { total_spaces := 5, free_hours_available := false, free_parking_details := [],
    paid_parking_details := [], parking_cost_info := "Unknown",
    restrictions := ["FREE 6PM-9AM"], has_street_parking := true, hours := "Unknown",
    parking_cost := "Unknown" }

/-- Witness for claim C6: a record with FREE cost text earns the 0.15
bonus, a parsed rate of two dollars an hour earns the 0.1 penalty, and
FREE restriction text earns the 0.1 bonus. -/
theorem C6_street_parking_factors_witness :
    free_parking_bonus (analyze_street_parking [exFreeRec]) = 0.15 ∧
    paid_parking_penalty exPaidSA = -0.1 ∧
    time_restriction_bonus exRestrSA = 0.1 := by
  refine ⟨?_, ?_, ?_⟩
  · rw [C6_street_parking_factors.1 [exFreeRec] (by simp)]
    rw [if_pos (by decide)]
  · rw [C6_street_parking_factors.2.1 exPaidSA rfl]
    have hp : pyFloat? (pyReplace (pyReplace exPaidSA.parking_cost_info "$" "") "/hr" "") =
        some (1 * ((digitsToNat ['2'] : ℚ) + (digitsToNat ['0', '0'] : ℚ) /
          10 ^ (['0', '0'] : List Char).length)) := rfl
    rw [hp, show digitsToNat ['2'] = 2 from by decide,
      show digitsToNat ['0', '0'] = 0 from by decide]
    norm_num
  · rw [C6_street_parking_factors.2.2 exRestrSA rfl]
    rw [if_pos (by decide)]

/-- Claim C8 counterexample: the claimed stripping rule drops a leading
numeric token unconditionally, but on the one-token address 100 the source
helper returns the address unchanged while the claimed rule yields the
empty string. -/
theorem C8_stripping_counterexample :
    stripNumberSpec "100" = "" ∧
    extract_street_from_address "100" = "100" ∧
    extract_street_from_address "100" ≠ stripNumberSpec "100" := by
  refine ⟨by decide, by decide, by decide⟩

/-- Claim C8 as amended: infractions and street parking join on exact
case-insensitive street equality; a lot matches a location exactly when
its address is non-blank and the location is a case-insensitive substring
of the address or the address with its leading street number stripped
equals the location case-insensitively; and stripping drops the first
whitespace-delimited token exactly when it is purely numeric and at least
one more token follows, rejoining the rest with single spaces. -/
theorem C8_location_matching :
    (∀ (loc : String) (bylaw : List BylawRecord) (d : PyDict),
      d ∈ get_location_infractions loc bylaw ↔
        ∃ r ∈ bylaw, pyUpper r.STREET = pyUpper loc ∧ d = mkInfractionDict r) ∧
    (∀ (loc : String) (records : List StreetParkingRecord) (r : StreetParkingRecord),
      r ∈ get_location_street_parking loc records ↔
        r ∈ records ∧ pyUpper r.street = pyUpper loc) ∧
    (∀ (loc : String) (lots : List ParkingLotRecord) (lot : ParkingLotRecord),
      lot ∈ get_nearby_parking_lots loc lots ↔
        lot ∈ lots ∧ pyStrip lot.Address ≠ "" ∧
          (strContainsB (pyUpper lot.Address) (pyUpper loc) = true ∨
            pyUpper (extract_street_from_address lot.Address) = pyUpper loc)) ∧
    (∀ addr : String, extract_street_from_address addr =
      (match pySplitWS addr with
        | tok :: rest => if pyIsDigit tok = true ∧ rest ≠ [] then pyJoin " " rest else addr
        | [] => addr)) ∧
    extract_street_from_address "100 REGINA ST S" = "REGINA ST S" ∧
    extract_street_from_address "REGINA ST S" = "REGINA ST S" := by
  refine ⟨?_, ?_, ?_, ?_, by decide, by decide⟩
  · intro loc bylaw d
    unfold get_location_infractions
    simp only [List.mem_map, List.mem_filter, beq_iff_eq]
    constructor
    · rintro ⟨r, ⟨hr, hs⟩, hd⟩
      exact ⟨r, hr, hs, hd.symm⟩
    · rintro ⟨r, hr, hs, hd⟩
      exact ⟨r, ⟨hr, hs⟩, hd.symm⟩
  · intro loc records r
    unfold get_location_street_parking
    simp only [List.mem_filter, beq_iff_eq]
  · intro loc lots lot
    unfold get_nearby_parking_lots
    simp only [List.mem_filter, Bool.and_eq_true, Bool.or_eq_true, beq_iff_eq,
      ne_eq, decide_eq_true_eq]
  · intro addr
    unfold extract_street_from_address
    cases hsp : pySplitWS addr with
    | nil => simp
    | cons tok rest =>
      cases rest with
      | nil => simp
      | cons t2 r2 =>
        simp only [List.length_cons, List.headD_cons, List.drop_succ_cons, List.drop_zero]
        by_cases hd : pyIsDigit tok = true
        · rw [if_pos (by simp [hd]), if_pos ⟨hd, by simp⟩]
        · rw [if_neg (by simp [hd]), if_neg (by simp [hd])]

/-- A parking-lot record whose address has a double space, so that only
the stripped-equality branch of the lot matching rule applies, for the
witness of claim C8. -/
def exLot : ParkingLotRecord := { LotName := "City Lot", Address := "100 REGINA  ST S" }

/-- Witness for claim C8: the lot at 100 REGINA ST S (with a double space)
matches the location REGINA ST S through the stripped-equality branch, and
a bylaw record on KING ST matches the lower-case location king st. -/
theorem C8_location_matching_witness :
    exLot ∈ get_nearby_parking_lots "REGINA ST S" [exLot] ∧
    strContainsB (pyUpper exLot.Address) (pyUpper "REGINA ST S") = false :=
  ⟨(C8_location_matching.2.2.1 "REGINA ST S" [exLot] exLot).mpr
      ⟨by simp, by decide, Or.inr (by decide)⟩,
    by decide⟩

/-- The dictionaries built per infraction carry the keys date, reason and
fine, so the ISSUEDATE lookup of the analyzer always returns its default
and the whole date-dependent block is skipped. -/
theorem infractionStep_missing_key (recent_date : ℚ) (acc : ℕ × List (String × ℕ))
    (r : BylawRecord) : infractionStep recent_date acc (mkInfractionDict r) = acc := by
  unfold infractionStep
  have hget : dictGet (mkInfractionDict r) "ISSUEDATE" "" = "" := by
    simp [dictGet, mkInfractionDict, List.find?]
  rw [hget, if_pos rfl]

/-- Through the actual pipeline every analyzed infraction dictionary comes
from mkInfractionDict, so the recency counter and the time histogram stay
empty whatever the dates are. -/
theorem analyze_infractions_pipeline (now : ℚ) (loc : String) (rs : List BylawRecord) :
    analyze_infractions now (get_location_infractions loc rs) =
      { total_count := (get_location_infractions loc rs).length,
        recent_count := 0, peak_times := [] } := by
  have hfold : ∀ (l : List BylawRecord) (acc : ℕ × List (String × ℕ)),
      (l.map mkInfractionDict).foldl (infractionStep (now - 30)) acc = acc := by
    intro l
    induction l with
    | nil => intro acc; rfl
    | cons r rest ih =>
      intro acc
      rw [List.map_cons, List.foldl_cons, infractionStep_missing_key]
      exact ih acc
  unfold analyze_infractions get_location_infractions
  by_cases h :
      ((rs.filter (fun r => pyUpper r.STREET == pyUpper loc)).map mkInfractionDict).isEmpty = true
  · rw [if_pos h]
    have hnil := List.isEmpty_iff.mp h
    rw [hnil]
    rfl
  · rw [if_neg h, hfold]
    rfl

/-- Evaluation of one analyzer step on a dictionary that does carry the
ISSUEDATE key: a parseable date whose string has a time portion bumps the
midnight histogram bucket, because the date-only strptime leaves the hour
attribute at zero, and increments the recent counter when the date is at
least the cutoff. -/
theorem infractionStep_keyed (recent_date : ℚ) (s tok : String) (toks : List String)
    (o : ℕ) (hs : s ≠ "") (hsplit : pySplitWS s = tok :: toks)
    (hparse : parseMDY tok = some o) (htoks : toks ≠ []) :
    ∀ acc : ℕ × List (String × ℕ),
      infractionStep recent_date acc [("ISSUEDATE", s)] =
        (if (o : ℚ) ≥ recent_date then acc.1 + 1 else acc.1, bump acc.2 "00:00") := by
  intro acc
  unfold infractionStep
  have hget : dictGet [("ISSUEDATE", s)] "ISSUEDATE" "" = s := by
    simp [dictGet, List.find?]
  rw [hget, if_neg hs, hsplit]
  dsimp only
  rw [hparse]
  dsimp only
  rw [show (if toks.length > 0 then (0 : ℕ) else 12) = 0 from
    if_pos (List.length_pos.mpr htoks)]
  rw [show fmtHour 0 = "00:00" from by decide]

/-- Noon, October 12 of 2026, as a Gregorian ordinal with a fractional
day; the concrete now of the code-bug scenarios. -/
def nowOct2026 : ℚ := 739901.5

/-- The bylaw record of the claim C5 scenario: an infraction on KING ST
dated eleven days before now. -/
def exC5Rec : BylawRecord :=
  { STREET := "KING ST", ISSUEDATE := "10/01/2026 9:15:00 AM",
    REASON := "NO PARKING", VIOFINE := "30", ADDRESS := "1 KING ST" }

/-- Eleven recent infractions at one location, the failing input of claim
C5. -/
def exC5Records : List BylawRecord := List.replicate 11 exC5Rec

/-- Claim C5 evaluated at its failing input: all eleven infractions are
dated within the last 30 days before now, so the claim demands a recent
count of eleven and an enforcement adjustment of minus 0.15; the code
computes a recent count of zero and an adjustment of zero, because the
analyzer reads the key ISSUEDATE from dictionaries whose date is stored
under the key date.  Feeding the analyzer dictionaries that do carry the
ISSUEDATE key yields eleven and minus 0.15. -/
theorem C5_enforcement_risk_code_bug :
    exC5Records.countP (fun r => recentPerSpec nowOct2026 r.ISSUEDATE) = 11 ∧
    (analyze_infractions nowOct2026
      (get_location_infractions "KING ST" exC5Records)).recent_count = 0 ∧
    enforcement_risk (analyze_infractions nowOct2026
      (get_location_infractions "KING ST" exC5Records)) = 0 ∧
    (analyze_infractions nowOct2026
      (exC5Records.map (fun r => [("ISSUEDATE", r.ISSUEDATE)]))).recent_count = 11 ∧
    enforcement_risk (analyze_infractions nowOct2026
      (exC5Records.map (fun r => [("ISSUEDATE", r.ISSUEDATE)]))) = -0.15 := by
  have hspec : recentPerSpec nowOct2026 exC5Rec.ISSUEDATE = true := by
    unfold recentPerSpec
    rw [show pySplitWS exC5Rec.ISSUEDATE = ["10/01/2026", "9:15:00", "AM"] from by decide]
    dsimp only
    rw [show parseMDY "10/01/2026" = some 739890 from by decide]
    dsimp only
    rw [decide_eq_true_eq]
    norm_num [nowOct2026]
  have hstep := infractionStep_keyed (nowOct2026 - 30) exC5Rec.ISSUEDATE "10/01/2026"
    ["9:15:00", "AM"] 739890 (by decide) (by decide) (by decide) (by simp)
  have hrec : (((739890 : ℕ) : ℚ) ≥ nowOct2026 - 30) = True :=
    eq_true (by norm_num [nowOct2026])
  have hfold : (exC5Records.map (fun r => [("ISSUEDATE", r.ISSUEDATE)])).foldl
      (infractionStep (nowOct2026 - 30)) (0, []) = (11, [("00:00", 11)]) := by
    simp only [exC5Records, List.replicate, List.map_cons, List.map_nil,
      List.foldl_cons, List.foldl_nil, hstep, hrec, if_true]
    refine Prod.ext ?_ ?_
    · norm_num
    · decide
  have hia : analyze_infractions nowOct2026
      (exC5Records.map (fun r => [("ISSUEDATE", r.ISSUEDATE)])) =
      { total_count := 11, recent_count := 11, peak_times := ["00:00"] } := by
    unfold analyze_infractions
    rw [if_neg (by decide), hfold]
    rfl
  refine ⟨?_, ?_, ?_, ?_, ?_⟩
  · simp [exC5Records, List.replicate, List.countP_cons, hspec]
  · rw [analyze_infractions_pipeline]
  · rw [analyze_infractions_pipeline]
    norm_num [enforcement_risk]
  · rw [hia]
  · rw [hia]
    norm_num [enforcement_risk]

/-- The six timestamps of the claim C7 scenario: three infractions at the
ninth hour, two at the fourteenth and one at the twentieth. -/
def exC7Dates : List String :=
  ["10/05/2026 9:00:00 AM", "10/05/2026 9:30:00 AM", "10/05/2026 9:45:00 AM",
   "10/05/2026 2:00:00 PM", "10/05/2026 2:30:00 PM", "10/05/2026 8:00:00 PM"]

/-- The bylaw records of the claim C7 scenario. -/
def exC7Records : List BylawRecord :=
  exC7Dates.map (fun d =>
    { STREET := "KING ST", ISSUEDATE := d, REASON := "NO PARKING",
      VIOFINE := "30", ADDRESS := "1 KING ST" })

/-- Claim C7 evaluated at its failing input: with infractions at hours
9, 9, 9, 14, 14 and 20 the claim demands the peak times 9, 14, 20 in that
order.  Through the pipeline the histogram is empty and peak times are the
empty list, because the analyzer reads the key ISSUEDATE from
dictionaries keyed date, while total count still counts all six records;
and even on dictionaries carrying the ISSUEDATE key every record lands in
the midnight bucket (the hour comes from a date-only strptime, which is
always zero when a time portion is present), so the peak times are the
single entry 00:00 rather than the three requested hours. -/
theorem C7_peak_times_code_bug :
    (analyze_infractions nowOct2026
      (get_location_infractions "KING ST" exC7Records)).peak_times = [] ∧
    (analyze_infractions nowOct2026
      (get_location_infractions "KING ST" exC7Records)).total_count = 6 ∧
    (analyze_infractions nowOct2026
      (exC7Records.map (fun r => [("ISSUEDATE", r.ISSUEDATE)]))).peak_times = ["00:00"] ∧
    ["00:00"] ≠ ["09:00", "14:00", "20:00"] := by
  have h1 := infractionStep_keyed (nowOct2026 - 30) "10/05/2026 9:00:00 AM" "10/05/2026"
    ["9:00:00", "AM"] 739894 (by decide) (by decide) (by decide) (by simp)
  have h2 := infractionStep_keyed (nowOct2026 - 30) "10/05/2026 9:30:00 AM" "10/05/2026"
    ["9:30:00", "AM"] 739894 (by decide) (by decide) (by decide) (by simp)
  have h3 := infractionStep_keyed (nowOct2026 - 30) "10/05/2026 9:45:00 AM" "10/05/2026"
    ["9:45:00", "AM"] 739894 (by decide) (by decide) (by decide) (by simp)
  have h4 := infractionStep_keyed (nowOct2026 - 30) "10/05/2026 2:00:00 PM" "10/05/2026"
    ["2:00:00", "PM"] 739894 (by decide) (by decide) (by decide) (by simp)
  have h5 := infractionStep_keyed (nowOct2026 - 30) "10/05/2026 2:30:00 PM" "10/05/2026"
    ["2:30:00", "PM"] 739894 (by decide) (by decide) (by decide) (by simp)
  have h6 := infractionStep_keyed (nowOct2026 - 30) "10/05/2026 8:00:00 PM" "10/05/2026"
    ["8:00:00", "PM"] 739894 (by decide) (by decide) (by decide) (by simp)
  have hrec : (((739894 : ℕ) : ℚ) ≥ nowOct2026 - 30) = True :=
    eq_true (by norm_num [nowOct2026])
  have hfold : (exC7Records.map (fun r => [("ISSUEDATE", r.ISSUEDATE)])).foldl
      (infractionStep (nowOct2026 - 30)) (0, []) = (6, [("00:00", 6)]) := by
    simp only [exC7Records, exC7Dates, List.map_cons, List.map_nil,
      List.foldl_cons, List.foldl_nil, h1, h2, h3, h4, h5, h6, hrec, if_true]
    refine Prod.ext ?_ ?_
    · norm_num
    · decide
  have hia : analyze_infractions nowOct2026
      (exC7Records.map (fun r => [("ISSUEDATE", r.ISSUEDATE)])) =
      { total_count := 6, recent_count := 6, peak_times := ["00:00"] } := by
    unfold analyze_infractions
    rw [if_neg (by decide), hfold]
    rfl
  refine ⟨?_, ?_, ?_, by decide⟩
  · rw [analyze_infractions_pipeline]
  · rw [analyze_infractions_pipeline]
    decide
  · rw [hia]

end SpurHacks
